import Mathlib

/-!
Verification development for the annotation renderer, docstring splicer and
annotation resolver of sphinx-autodoc-typehints
(src/sphinx_autodoc_typehints/__init__.py).  Python functions are shallowly
embedded as Lean functions over an explicit model of the runtime annotation
values; logging effects are modeled as explicitly returned warning lists and
the raising of exceptions as Except values.
-/

namespace AutodocTypehints

/-! ## Python-flavoured string helpers -/

/-- The apostrophe character (0x27), as used by str.strip in the ValueError
fallback of format_annotation. -/
def quoteChar : Char := Char.ofNat 39

/-- Python str.lstrip with a single-character strip set. -/
def pyLstrip (c : Char) (s : String) : String :=
  String.mk (s.data.dropWhile (fun d => d == c))

/-- Python str.rstrip with a single-character strip set. -/
def pyRstrip (c : Char) (s : String) : String :=
  String.mk ((s.data.reverse.dropWhile (fun d => d == c)).reverse)

/-- Python str.strip with a single-character strip set. -/
def pyStrip (c : Char) (s : String) : String :=
  pyRstrip c (pyLstrip c s)

/-- Python str.startswith, on the character lists of the strings. -/
def strStartsWith (s pre : String) : Bool :=
  pre.data.isPrefixOf s.data

/-- Python str.endswith, on the character lists of the strings. -/
def strEndsWith (s post : String) : Bool :=
  post.data.isSuffixOf s.data

/-- Substring test on character lists (Python's `in` operator on str). -/
def listContainsSub (pat : List Char) : List Char → Bool
  | [] => pat.isPrefixOf []
  | c :: rest => pat.isPrefixOf (c :: rest) || listContainsSub pat rest

/-- Python `pat in s` for strings. -/
def strContains (s pat : String) : Bool :=
  listContainsSub pat.data s.data

/-- Python whitespace for str.split and str.strip with no argument. -/
def isPySpace (c : Char) : Bool :=
  c == ' ' || c == Char.ofNat 9 || c == Char.ofNat 10 || c == Char.ofNat 11 ||
    c == Char.ofNat 12 || c == Char.ofNat 13

/-- Python str.strip() with no argument: whitespace removed from both ends. -/
def pyTrim (s : String) : String :=
  String.mk (((s.data.dropWhile isPySpace).reverse.dropWhile isPySpace).reverse)

/-! ## The annotation data model

A model of the runtime values format_annotation receives, carrying exactly the
attributes the source reads: the originating module, the display class name and
the recursive argument annotations.  The constructors mirror how CPython's
typing machinery represents each shape. -/

inductive Ann where
  /-- The class type(None), as it appears among union members, and the bare
  None annotation (handled identically at lines 200-201 of the source). -/
  | noneType : Ann
  /-- The Ellipsis marker (lines 202-203). -/
  | ellipsisVal : Ann
  /-- typing.ForwardRef with its forward argument string (lines 198-199). -/
  | forwardRef (arg : String) : Ann
  /-- A class from the builtins module, e.g. int, str, bool; its qualified
  name is the bare class name. -/
  | builtin (qualname : String) : Ann
  /-- An ordinary class with its defining module and qualified name. -/
  | cls (module qualname : String) : Ann
  /-- A typing._UnionGenericAlias value: its module attribute is "typing", its
  origin is typing.Union (whose private name attribute is "Union"), its own
  private name attribute is "Optional" exactly when CPython built it from two
  parameters one of which is NoneType (see typingUnion below), and its
  argument tuple is `args`. -/
  | unionAlias (nm : Option String) (args : List Ann) : Ann
  /-- A parametrized generic alias: module attribute, private name attribute
  (read at line 107-108 of the source) and argument tuple, e.g.
  typing.List[int] as genericAlias "typing" "List" [builtin "int"] or a
  collections.abc.Callable alias. -/
  | genericAlias (module nm : String) (args : List Ann) : Ann
  /-- A value with neither a module attribute nor a generic origin:
  get_annotation_module raises ValueError on it (lines 78-79).  Carries its
  str() form, which the except-branch of format_annotation reads. -/
  | unclassifiable (strForm : String) : Ann

/-- The identity test `x is type(None)` of the source (lines 248, 253, 260):
true exactly for the NoneType constructor. -/
def isNoneType : Ann → Bool
  | .noneType => true
  | _ => false

/-- The identity test `args[0] is not ...` of line 261, positively: true
exactly for the Ellipsis marker. -/
def isEllipsis : Ann → Bool
  | .ellipsisVal => true
  | _ => false

/-- Whether the first member of a Callable argument tuple exists and is not
the Ellipsis marker (the `args and args[0] is not ...` test of line 261). -/
def callableArgsOk : List Ann → Bool
  | [] => false
  | h :: _ => ¬ isEllipsis h

/-- Rendering configuration: the config attributes format_annotation reads,
with the default values registered in setup() (lines 964-975).  The
typehints_formatter hook is modeled as absent (None), its registered default;
every claim below concerns configurations with no custom formatter. -/
structure Config where
  typehints_fully_qualified : Bool := false
  simplify_optional_unions : Bool := true
  always_use_bars_union : Bool := false
  typehints_fixup_module_name : Option (String → String) := none

/-- Embeds _PYDATA_ANNOTATIONS (line 39). -/
def PYDATA_ANNOTATIONS : List String :=
  ["Any", "AnyStr", "Callable", "ClassVar", "Literal", "NoReturn", "Optional",
   "Tuple", "Union"]

/-- Embeds get_annotation_module (lines 56-79).  The NewType / TypeVar /
ParamSpec tests (lines 67-73) and the types-table lookup (lines 65-66) concern
value shapes outside the modeled Ann subset.  Every modeled value except
unclassifiable has a module attribute (for class instances the attribute is
found on the class), so the hasattr branch of line 74 answers; unclassifiable
models the values for which line 79 raises ValueError, here an Except.error. -/
def get_annotation_module : Ann → Except String String
  | .noneType => .ok "builtins"
  | .ellipsisVal => .ok "builtins"
  | .forwardRef _ => .ok "typing"
  | .builtin _ => .ok "builtins"
  | .cls m _ => .ok m
  | .unionAlias _ _ => .ok "typing"
  | .genericAlias m _ _ => .ok m
  | .unclassifiable s => .error ("Cannot determine the module of " ++ s)

/-- Embeds get_annotation_class_name (lines 86-121).  For classes the
qualified-name branch of line 105 answers; for generic aliases the private
name attribute of line 107 answers; for a union alias whose own private name
is absent, the origin's private name "Union" answers (lines 113-118).  The
NewType / AnyStr / types-table special cases concern shapes outside Ann.
noneType is the class NoneType, whose qualified name answers at line 105;
unclassifiable never reaches this call (format_annotation catches the
ValueError from get_annotation_module first), so it maps to a placeholder. -/
def get_annotation_class_name : Ann → String → String
  | .noneType, _ => "NoneType"
  | .ellipsisVal, _ => "ellipsis"
  | .forwardRef _, _ => "ForwardRef"
  | .builtin q, _ => q
  | .cls _ q, _ => q
  | .unionAlias nm _, _ => nm.getD "Union"
  | .genericAlias _ nm _, _ => nm
  | .unclassifiable _, _ => ""

/-- Embeds get_annotation_args (lines 124-156).  For the modeled subset the
answer is the argument tuple of the alias (line 154); the Pattern / Match /
ClassVar / TypeVar / NewType / Literal / Generic special cases (lines 142-153)
and the empty-fixed-tuple collapse (line 156) concern shapes outside Ann, and
non-alias values have no argument attribute, yielding the empty tuple. -/
def get_annotation_args : Ann → String → String → List Ann
  | .unionAlias _ args, _, _ => args
  | .genericAlias _ _ args, _, _ => args
  | _, _, _ => []

/-- Embeds fixup_module_name (lines 171-180). -/
def fixup_module_name (cfg : Config) (module : String) : String :=
  let module := match cfg.typehints_fixup_module_name with
    | some f => f module
    | none => module
  let module := if module == "typing_extensions" then "typing" else module
  if module == "_io" then "io" else module

/-- Whether type(annotation).__qualname__ equals "_UnionGenericAlias", the
test of line 228: true exactly for the typing union aliases. -/
def isUnionGenericAlias : Ann → Bool
  | .unionAlias _ _ => true
  | _ => false

/-- The str() form of a modeled value, read only on the
classification-failure path of format_annotation (line 216).  Only
unclassifiable values take that path (get_annotation_module succeeds on every
other constructor), so the other constructors map to an unread placeholder. -/
def strOf : Ann → String
  | .unclassifiable s => s
  | _ => ""

/-- The closing composition of format_annotation (lines 269-279): when
arguments exist and no special case preformatted them, lay them out with the
current args_format template — modeled as the fmtPre / fmtPost pair around the
comma-joined members, the default template "\\[{}]" being the pair
("\\[", "]") — then build the cross-reference with the non-breaking escape
separating it from the argument block. -/
def compose_ref (role pfx full_name fmtPre fmtPost : String) (fmtArgs : List String)
    (preformatted : String) : String :=
  let formatted_args :=
    if ¬ fmtArgs.isEmpty && preformatted == "" then
      fmtPre ++ String.intercalate ", " fmtArgs ++ fmtPost
    else preformatted
  let escape := if ¬ (formatted_args == "") then "\\ " else ""
  ":py:" ++ role ++ ":`" ++ pfx ++ full_name ++ "`" ++ escape ++ formatted_args

/-- The classification-dependent body of format_annotation (lines 211-279),
taking the already-rendered argument strings (rendering is pure, so rendering
the members before the branch selection yields the same strings the source
obtains by rendering after it).  The NewType, TypeVar/ParamSpec and Literal
branches (lines 234-246, 264-265) concern shapes outside Ann.  The Union
branch keeps all members — None included — when simplify_optional_unions is
on and the union has more than two members (lines 249-260). -/
def format_classified (cfg : Config) (a : Ann) (rendered : List String) : String :=
  match get_annotation_module a with
  | .error _ => pyStrip quoteChar (strOf a)
  | .ok module0 =>
    let class_name := get_annotation_class_name a module0
    let args0 := get_annotation_args a module0 class_name
    let argsR := args0.zip rendered
    let module := fixup_module_name cfg module0
    let full_name0 := if module == "builtins" then class_name
      else module ++ "." ++ class_name
    let pfx := if cfg.typehints_fully_qualified || full_name0 == class_name then ""
      else "~"
    let role := if module == "typing" && PYDATA_ANNOTATIONS.contains class_name
      then "data" else "class"
    let is_bars := full_name0 == "types.UnionType" ||
      (cfg.always_use_bars_union && isUnionGenericAlias a)
    let full_name := if is_bars then "" else full_name0
    if full_name == "typing.Optional" then
      compose_ref role pfx full_name "\\[" "]"
        ((argsR.filter (fun p => ¬ isNoneType p.1)).map (fun p => p.2)) ""
    else if (full_name == "typing.Union" || full_name == "types.UnionType") &&
        args0.any isNoneType then
      if args0.length == 2 then
        compose_ref "data" pfx "typing.Optional" "\\[" "]"
          ((argsR.filter (fun p => ¬ isNoneType p.1)).map (fun p => p.2)) ""
      else if ¬ cfg.simplify_optional_unions then
        compose_ref "data" pfx "typing.Optional"
          ("\\[:py:data:`" ++ pfx ++ "typing.Union`\\[") "]]"
          ((argsR.filter (fun p => ¬ isNoneType p.1)).map (fun p => p.2)) ""
      else
        compose_ref role pfx full_name "\\[" "]" rendered ""
    else if (full_name == "typing.Callable" || full_name == "collections.abc.Callable")
        && callableArgsOk args0 then
      compose_ref role pfx full_name "\\[" "]" rendered
        ("\\[\\[" ++ String.intercalate ", " rendered.dropLast ++ "], " ++
          rendered.getLastD "" ++ "]")
    else if is_bars then
      String.intercalate " | " rendered
    else
      compose_ref role pfx full_name "\\[" "]" rendered ""

mutual
/-- Embeds format_annotation (lines 183-279) for configurations without a
custom typehints_formatter.  The ForwardRef, None/NoneType and Ellipsis
special cases come first (lines 198-203); tuple-valued annotations (lines
205-206) and sphinx TypeAliasForwardRef values (lines 208-209) are outside
the modeled Ann subset.  Every other value is classified and rendered by
format_classified, with its member annotations rendered recursively. -/
def format_ann (cfg : Config) : Ann → String
  | .forwardRef s => s
  | .noneType => ":py:obj:`None`"
  | .ellipsisVal => ":py:data:`...<Ellipsis>`"
  | .builtin q => format_classified cfg (.builtin q) []
  | .cls m q => format_classified cfg (.cls m q) []
  | .unionAlias nm args => format_classified cfg (.unionAlias nm args) (format_ann_list cfg args)
  | .genericAlias m nm args => format_classified cfg (.genericAlias m nm args) (format_ann_list cfg args)
  | .unclassifiable s => format_classified cfg (.unclassifiable s) []

/-- The recursive format_annotation calls on the members of an argument
tuple (lines 262, 267, 275). -/
def format_ann_list (cfg : Config) : List Ann → List String
  | [] => []
  | x :: xs => format_ann cfg x :: format_ann_list cfg xs
end

/-! ## CPython typing-module union construction (external semantics)

Modelled from CPython's typing module, which builds the runtime values this
repository's renderer receives: subscripting typing.Union flattens nested
union parameters in order, removes duplicates keeping first occurrences,
returns a lone remaining parameter unwrapped, and names the alias "Optional"
exactly when two parameters remain and one of them is NoneType.
typing.Optional[X] is defined as typing.Union[X, None]. -/

mutual
/-- Structural equality of modeled annotation values (the Python == duplicate
test used by typing's parameter deduplication). -/
def beqAnn : Ann → Ann → Bool
  | .noneType, .noneType => true
  | .ellipsisVal, .ellipsisVal => true
  | .forwardRef a, .forwardRef b => a == b
  | .builtin a, .builtin b => a == b
  | .cls m q, .cls m' q' => m == m' && q == q'
  | .unionAlias nm as, .unionAlias nm' bs => nm == nm' && beqAnnList as bs
  | .genericAlias m nm as, .genericAlias m' nm' bs =>
      m == m' && nm == nm' && beqAnnList as bs
  | .unclassifiable s, .unclassifiable t => s == t
  | _, _ => false

/-- Member-wise equality of annotation lists. -/
def beqAnnList : List Ann → List Ann → Bool
  | [], [] => true
  | x :: xs, y :: ys => beqAnn x y && beqAnnList xs ys
  | _, _ => false
end

/-- Order-preserving first-occurrence deduplication of union parameters. -/
def dedupParams (seen : List Ann) : List Ann → List Ann
  | [] => []
  | x :: xs =>
    if seen.any (beqAnn x) then dedupParams seen xs
    else x :: dedupParams (x :: seen) xs

/-- Flattening of nested union parameters, in order. -/
def flattenUnionParams (params : List Ann) : List Ann :=
  params.flatMap (fun p =>
    match p with
    | .unionAlias _ as => as
    | p => [p])

/-- Modelled from the spec's host-runtime vocabulary and CPython's
Union subscription: the runtime value of a Union[...] type expression. -/
def typingUnion (params : List Ann) : Ann :=
  let dd := dedupParams [] (flattenUnionParams params)
  match dd with
  | [x] => x
  | dd =>
    if dd.length == 2 && dd.any isNoneType then .unionAlias (some "Optional") dd
    else .unionAlias none dd

/-- The runtime value of Optional[X], i.e. Union[X, None]. -/
def typingOptional (x : Ann) : Ann :=
  typingUnion [x, Ann.noneType]

/-! ## Rendering lemmas and the union/optional claims -/

theorem isNoneType_noneType : isNoneType Ann.noneType = true := rfl

theorem intercalate_singleton (s : String) : String.intercalate ", " [s] = s := rfl

theorem bracket_wrap_ne_empty (x : String) : ("\\[" ++ x ++ "]" = "") = False := by
  simp only [eq_iff_iff, iff_false]
  intro hc
  have h2 := congrArg String.data hc
  simp at h2

/-- For a member annotation that is neither NoneType nor itself a union
alias, subscripting typing.Optional produces the two-member union alias
carrying the private name "Optional". -/
theorem typingOptional_eq (X : Ann) (h1 : isNoneType X = false)
    (h2 : isUnionGenericAlias X = false) :
    typingOptional X = Ann.unionAlias (some "Optional") [X, Ann.noneType] := by
  cases X <;> simp_all [typingOptional, typingUnion, flattenUnionParams, dedupParams, beqAnn,
    isNoneType, isUnionGenericAlias]

/-- C1 (amended): for every annotation X that is neither NoneType nor itself
a union alias, rendering Optional[X] — the runtime two-member union named
"Optional" — yields the Optional cross-reference wrapped around the rendering
of X, identically for simplify_optional_unions true and false: the two-member
branch of format_annotation (and the typing.Optional branch at lines 247-248)
strips the None member and never consults the simplify flag, and no
Optional[Union[...]] wrapper is produced for two-member optionals. -/
theorem c1_optional_two_member_render (X : Ann) (sim : Bool) (h1 : isNoneType X = false)
    (h2 : isUnionGenericAlias X = false) :
    format_ann { simplify_optional_unions := sim } (typingOptional X) =
      ":py:data:`~typing.Optional`\\ \\[" ++
        format_ann { simplify_optional_unions := sim } X ++ "]" := by
  rw [typingOptional_eq X h1 h2]
  simp only [format_ann, format_ann_list, format_classified, get_annotation_module,
    get_annotation_class_name, get_annotation_args, fixup_module_name, isUnionGenericAlias,
    compose_ref, PYDATA_ANNOTATIONS]
  simp [h1, isNoneType_noneType, intercalate_singleton, bracket_wrap_ne_empty]
  simp only [← String.append_assoc]
  simp

/-- C1 witness: the amended statement instantiated at X = int with
simplify_optional_unions off. -/
theorem c1_optional_two_member_render_witness :
    format_ann { simplify_optional_unions := false } (typingOptional (Ann.builtin "int")) =
      ":py:data:`~typing.Optional`\\ \\[" ++
        format_ann { simplify_optional_unions := false } (Ann.builtin "int") ++ "]" :=
  c1_optional_two_member_render (Ann.builtin "int") false (by decide) (by decide)

/-- C1 counterexample: the claim as stated fails in both directions.  With
simplify_optional_unions=False, Optional[int] renders with no Union wrapper
and no None token at all (the two-member branch fires before the simplify
check); and with simplify_optional_unions=True, Optional[Union[str, bool]] —
a flattened three-member union — keeps its None member, so the output does
contain the None token. -/
theorem c1_counterexample :
    format_ann { simplify_optional_unions := false } (typingOptional (Ann.builtin "int")) =
        ":py:data:`~typing.Optional`\\ \\[:py:class:`int`]" ∧
      strContains
        (format_ann { simplify_optional_unions := false } (typingOptional (Ann.builtin "int")))
        "None" = false ∧
      strContains
        (format_ann { simplify_optional_unions := false } (typingOptional (Ann.builtin "int")))
        "Union" = false ∧
      strContains
        (format_ann {} (typingOptional (typingUnion [Ann.builtin "str", Ann.builtin "bool"])))
        "None" = true :=
  ⟨rfl, by decide, by decide, by decide⟩

/-- The runtime value of Union[Optional[int], str]: typing flattens the
nested optional in order, so the None member sits in the middle. -/
def unionOptIntStr : Ann := typingUnion [typingOptional (Ann.builtin "int"), Ann.builtin "str"]

/-- The runtime value of Union[int, Optional[str]]. -/
def unionIntOptStr : Ann := typingUnion [Ann.builtin "int", typingOptional (Ann.builtin "str")]

/-- The runtime value of Optional[Union[int, str]]. -/
def optUnionIntStr : Ann := typingOptional (typingUnion [Ann.builtin "int", Ann.builtin "str"])

/-- C2 counterexample: under the default configuration the three inputs do
not all render identically — Union[Optional[int], str] renders with its None
member in the middle, unlike Optional[Union[int, str]]. -/
theorem c2_counterexample :
    format_ann {} unionOptIntStr =
        ":py:data:`~typing.Union`\\ \\[:py:class:`int`, :py:obj:`None`, :py:class:`str`]" ∧
      format_ann {} optUnionIntStr =
        ":py:data:`~typing.Union`\\ \\[:py:class:`int`, :py:class:`str`, :py:obj:`None`]" ∧
      format_ann {} unionOptIntStr ≠ format_ann {} optUnionIntStr :=
  ⟨rfl, rfl, by decide⟩

/-- C2 (amended): Union[int, Optional[str]] and Optional[Union[int, str]]
are the same runtime union value and render to the same string under the
default configuration, while Union[Optional[int], str] renders differently:
typing's order-preserving flattening leaves its None member mid-list, and
with simplify_optional_unions on (the default) a three-member union keeps
the None member where it stands. -/
theorem c2_union_order_render :
    unionIntOptStr = optUnionIntStr ∧
      format_ann {} unionIntOptStr = format_ann {} optUnionIntStr ∧
      format_ann {} unionOptIntStr =
        ":py:data:`~typing.Union`\\ \\[:py:class:`int`, :py:obj:`None`, :py:class:`str`]" ∧
      format_ann {} unionOptIntStr ≠ format_ann {} unionIntOptStr :=
  ⟨rfl, rfl, rfl, by decide⟩

/-- C8: on every annotation value whose module/class-name classification
fails — get_annotation_module raises ValueError — format_annotation catches
the error and returns the annotation's plain str() form with surrounding
quote characters stripped (lines 211-216); being a total function, the
embedded renderer propagates no exception. -/
theorem c8_classification_failure_fallback (s : String) (cfg : Config) :
    get_annotation_module (Ann.unclassifiable s) =
        Except.error ("Cannot determine the module of " ++ s) ∧
      format_ann cfg (Ann.unclassifiable s) = pyStrip quoteChar s :=
  ⟨rfl, rfl⟩

/-! ## The docstring splicer -/

/-- Whether a character belongs to the escaped set of sphinx.util.rst.escape.
Modelled from that external sphinx helper: ASCII symbols 0x21-0x2D, 0x2F,
0x3A-0x40, 0x5B-0x60 and 0x7B-0x7E — every ASCII punctuation character
except the dot — get a backslash prefix. -/
def isRstSymbol (c : Char) : Bool :=
  (33 ≤ c.toNat && c.toNat ≤ 45) || c.toNat == 47 ||
    (58 ≤ c.toNat && c.toNat ≤ 64) || (91 ≤ c.toNat && c.toNat ≤ 96) ||
    (123 ≤ c.toNat && c.toNat ≤ 126)

/-- Modelled from sphinx.util.rst.escape (external collaborator of
add_type_css_class): prefix every symbol character with a backslash. -/
def rst_escape (s : String) : String :=
  String.mk (s.data.flatMap (fun c => if isRstSymbol c then [Char.ofNat 92, c] else [c]))

/-- Embeds add_type_css_class (lines 937-938). -/
def add_type_css_class (type_rst : String) : String :=
  ":sphinx_autodoc_typehints_type:`" ++ rst_escape type_rst ++ "`"

/-- Splitting a character list at the first occurrence of a separator
character, when one exists. -/
def splitOnceChar (ch : Char) : List Char → Option (List Char × List Char)
  | [] => none
  | c :: rest =>
    if c == ch then some ([], rest)
    else (splitOnceChar ch rest).map (fun p => (c :: p.1, p.2))

/-- Python str.split(sep, maxsplit=2) for a one-character separator: at most
the first two occurrences split, the remainder stays intact. -/
def pySplitMax2 (ch : Char) (s : String) : List String :=
  match splitOnceChar ch s.data with
  | none => [s]
  | some (a, rest) =>
    match splitOnceChar ch rest with
    | none => [String.mk a, String.mk rest]
    | some (b, rest2) => [String.mk a, String.mk b, String.mk rest2]

/-- Python str.split(maxsplit=1) with no separator: leading whitespace is
skipped, the first whitespace run after the first token separates it from the
verbatim remainder. -/
def pyWsSplit1 (s : String) : List String :=
  let l := s.data.dropWhile isPySpace
  match l with
  | [] => []
  | l =>
    let tok := l.takeWhile (fun c => ¬ isPySpace c)
    let rest := (l.drop tok.length).dropWhile isPySpace
    if rest.isEmpty then [String.mk tok] else [String.mk tok, String.mk rest]

/-- Embeds _get_sphinx_line_keyword_and_argument (lines 668-690): a line is a
structured field option line when splitting on ":" with maxsplit 2 gives
three parts; the middle part then holds the keyword and its optional
argument. -/
def get_sphinx_line_keyword_and_arg (line : String) : Option (String × Option String) :=
  match pySplitMax2 ':' line with
  | [_, mid, _] =>
    (match pyWsSplit1 mid with
     | [] => none
     | [k] => some (k, none)
     | [k, nm] => some (k, some nm)
     | _ => none)
  | _ => none

/-- The star prefixes accepted in front of a documented parameter name
(line 706). -/
def STAR_PREFIXES : List String := ["", "\\*", "\\**", "\\*\\*"]

/-- Embeds _line_is_param_line_for_arg (lines 693-706): the line must be a
structured field whose keyword is one of param / parameter / arg / argument
and whose argument equals the parameter name with an optional star prefix. -/
def line_is_param_line_for_arg (line arg_name : String) : Bool :=
  match get_sphinx_line_keyword_and_arg line with
  | none => false
  | some (_, none) => false
  | some (keyword, some doc_name) =>
    if ¬ (keyword ∈ ["param", "parameter", "arg", "argument"]) then false
    else STAR_PREFIXES.any (fun pre => doc_name == pre ++ arg_name)

/-- Embeds PARAM_SYNONYMS (lines 797-799), the seven keyword-prefix synonyms
consulted by the return-type insertion heuristics — not by the
per-parameter scan above. -/
def PARAM_SYNONYMS : List String :=
  ["param ", "parameter ", "arg ", "argument ", "keyword ", "kwarg ", "kwparam "]

/-- The runtime value of the typehints_defaults configuration option: None,
a bool or a string. -/
inductive PyDefaultsOpt where
  | pynone : PyDefaultsOpt
  | pybool (b : Bool) : PyDefaultsOpt
  | pystr (s : String) : PyDefaultsOpt
deriving DecidableEq, Repr

/-- Python truthiness of a typehints_defaults value. -/
def PyDefaultsOpt.truthy : PyDefaultsOpt → Bool
  | .pynone => false
  | .pybool b => b
  | .pystr s => ¬ (s == "")

/-- Python value.startswith("braces") on a typehints_defaults value; reached
only when the value is a truthy string (validate_config rejects True). -/
def PyDefaultsOpt.beginsWithBraces : PyDefaultsOpt → Bool
  | .pystr s => strStartsWith s "braces"
  | _ => false

/-- Python value.endswith("after") on a typehints_defaults value. -/
def PyDefaultsOpt.finishesWithAfter : PyDefaultsOpt → Bool
  | .pystr s => strEndsWith s "after"
  | _ => false

/-- The app.config attributes the splicer reads, with the defaults registered
in setup() (lines 964-975). -/
structure AppConfig where
  always_document_param_types : Bool := false
  typehints_defaults : PyDefaultsOpt := .pynone
  typehints_document_rtype : Bool := true
  typehints_use_rtype : Bool := true
  renderCfg : Config := {}

/-- One entry of signature.parameters: the parameter name and the repr()
text of its default value, absent when the default is Parameter.empty. -/
structure SigParam where
  name : String
  default : Option String

/-- The displayed parameter name (lines 735-736): a single trailing
underscore is escaped. -/
def escapedName (s : String) : String :=
  if strEndsWith s "_" then String.mk s.data.dropLast ++ "\\_" else s

/-- Embeds format_default (lines 614-625); `default` carries the repr() text
of the default value, to which the backslash doubling of line 617 applies. -/
def format_default (cfg : AppConfig) (default : Option String) (is_annotated : Bool) :
    Option String :=
  match default with
  | none => none
  | some reprText =>
    let formatted := reprText.replace "\\" "\\\\"
    if is_annotated then
      if cfg.typehints_defaults.beginsWithBraces then
        some (" (default: ``" ++ formatted ++ "``)")
      else some (", default: ``" ++ formatted ++ "``")
    else
      if cfg.typehints_defaults == .pystr "braces-after" then
        some (" (default: ``" ++ formatted ++ "``)")
      else some ("default: ``" ++ formatted ++ "``")

/-- Python list.insert: insert before position i, clamping to the end. -/
def insertAt (i : Nat) (x : String) (l : List String) : List String :=
  l.take i ++ x :: l.drop i

/-- The forward scan of _append_default (lines 773-780): advance past the
indented or blank continuation lines of the field starting at insert_index,
remembering the last nonempty one. -/
def afterScan (lines : List String) : Nat → Nat → Nat
  | next, app =>
    if h : next < lines.length &&
        ((lines.getD next "" == "") || strStartsWith (lines.getD next "") " ") then
      afterScan lines (next + 1) (if ¬ (lines.getD next "" == "") then next else app)
    else app
  termination_by next _ => lines.length - next
  decreasing_by
    simp only [Bool.and_eq_true, decide_eq_true_eq] at h
    omega

/-- Embeds _append_default (lines 767-786): for the "-after" layouts the
formatted default is appended to the last line of the field block, otherwise
to the type line itself; returns the (possibly modified) buffer and type
line. -/
def append_default (cfg : AppConfig) (lines : List String) (insert_index : Nat)
    (type_ann_line formatted_default : String) : List String × String :=
  if cfg.typehints_defaults.finishesWithAfter then
    let append_index := afterScan lines (insert_index + 1) insert_index
    (lines.set append_index (lines.getD append_index "" ++ formatted_default), type_ann_line)
  else
    (lines, type_ann_line ++ formatted_default)

/-- The structured type field line built at lines 753-757. -/
def type_field_line (cfg : AppConfig) (ann : Option Ann) (arg_name : String) : String :=
  match ann with
  | none => ":type " ++ arg_name ++ ": "
  | some a => ":type " ++ arg_name ++ ": " ++ add_type_css_class (format_ann cfg.renderCfg a)

/-- The insertion tail of the _inject_signature loop body (lines 752-764):
build the type field line, optionally fold in a formatted default, and insert
at the chosen index. -/
def insert_with_type (cfg : AppConfig) (lines : List String) (insert_index : Nat)
    (arg_name : String) (ann : Option Ann) (default : Option String) : List String :=
  let type_ann_line := type_field_line cfg ann arg_name
  if cfg.typehints_defaults.truthy then
    match format_default cfg default ann.isSome with
    | some formatted_default =>
      let r := append_default cfg lines insert_index type_ann_line formatted_default
      insertAt insert_index r.2 r.1
    | none => insertAt insert_index type_ann_line lines
  else insertAt insert_index type_ann_line lines

/-- Embeds one iteration of the _inject_signature parameter loop (lines
730-764): look the annotation up under the raw parameter name, escape a
trailing underscore for display, search the buffer for an existing
parameter field — taking over its exact documented name when found — or
synthesize a bare field at the end of the buffer when the flag asks for it
and an annotation exists, then insert the type field at the chosen index. -/
def inject_one (cfg : AppConfig) (type_hints : List (String × Ann)) (p : SigParam)
    (lines : List String) : List String :=
  let ann := type_hints.lookup p.name
  let arg_name := escapedName p.name
  match lines.findIdx? (fun line => line_is_param_line_for_arg line arg_name) with
  | some at_ =>
    let arg_name := match get_sphinx_line_keyword_and_arg (lines.getD at_ "") with
      | some (_, some dn) => dn
      | _ => arg_name
    insert_with_type cfg lines at_ arg_name ann p.default
  | none =>
    if ann.isSome && cfg.always_document_param_types then
      let lines2 := lines ++ [":param " ++ arg_name ++ ":"]
      insert_with_type cfg lines2 lines2.length arg_name ann p.default
    else lines

/-- Embeds _inject_signature (lines 724-764): the per-parameter loop over
the signature's parameters, mutating the line buffer. -/
def inject_signature (cfg : AppConfig) (type_hints : List (String × Ann))
    (params : List SigParam) (lines : List String) : List String :=
  params.foldl (fun lines p => inject_one cfg type_hints p lines) lines

/-! ## Return-type injection -/

/-- Embeds the InsertIndexInfo dataclass (lines 789-794). -/
structure InsertIndexInfo where
  insert_index : Nat
  found_param : Bool := false
  found_return : Bool := false
  found_directive : Bool := false
deriving DecidableEq, Repr

/-- Embeds get_insert_index (lines 824-869).  Steps 1 and 2 are pure line
scans; steps 3-5 parse the buffer with the external docutils RST parser to
place the index after the parameter field list, before the first directive,
or at the end.  That parser-dependent tail is abstracted as the `tail`
argument, so the theorems below hold for every behavior of the external
parser. -/
def get_insert_index (tail : List String → Option InsertIndexInfo)
    (lines : List String) : Option InsertIndexInfo :=
  if lines.any (fun line => strStartsWith line ":rtype:") then none
  else
    match lines.findIdx? (fun line => strStartsWith line ":return:" || strStartsWith line ":returns:") with
    | some at_ => some { insert_index := at_, found_return := true }
    | none => tail lines

/-- Python str.find for a single character: the first index, or -1. -/
def pyFindChar (c : Char) (s : String) : Int :=
  match s.data.findIdx? (fun d => d == c) with
  | some i => (i : Int)
  | none => -1

/-- Python s[i:] slicing with a possibly negative start. -/
def pySliceFrom (s : String) (i : Int) : String :=
  let n := s.data.length
  let start := if i < 0 then (if (n : Int) + i < 0 then 0 else ((n : Int) + i).toNat) else i.toNat
  String.mk (s.data.drop start)

/-- Embeds _inject_rtype (lines 872-912), with the docutils-dependent tail of
get_insert_index abstracted as `tail` and the target object's traits passed
as booleans (inspect.isclass / inspect.isdatadescriptor). -/
def inject_rtype (tail : List String → Option InsertIndexInfo) (cfg : AppConfig)
    (ret_ann : Ann) (objIsClass objIsDataDescriptor : Bool) (what nm : String)
    (lines : List String) : List String :=
  if objIsClass || objIsDataDescriptor then lines
  else if what == "method" && strEndsWith nm ".__init__" then lines
  else if ¬ cfg.typehints_document_rtype then lines
  else
    match get_insert_index tail lines with
    | none => lines
    | some r =>
      let insert_index := r.insert_index
      if ¬ cfg.typehints_use_rtype && r.found_return &&
          strContains (lines.getD insert_index "") " -- " then lines
      else
        let formatted := add_type_css_class (format_ann cfg.renderCfg ret_ann)
        let insert_index :=
          if r.found_param && insert_index < lines.length &&
              ¬ (pyTrim (lines.getD insert_index "") == "") then
            insert_index - 1
          else insert_index
        let st :=
          if insert_index == lines.length && ¬ r.found_param then
            (lines ++ [""], insert_index + 1)
          else (lines, insert_index)
        let lines := st.1
        let insert_index := st.2
        if cfg.typehints_use_rtype || ¬ r.found_return then
          let lines := insertAt insert_index (":rtype: " ++ formatted) lines
          if r.found_directive then insertAt (insert_index + 1) "" lines else lines
        else
          let line := lines.getD insert_index ""
          lines.set insert_index
            (":return: " ++ formatted ++ " --" ++ pySliceFrom line (pyFindChar ' ' line))

/-! ## Type-comment backfill -/

/-- Python str.split(" -> "), scanning left to right for non-overlapping
occurrences of the four-character separator, structurally on the character
list. -/
def splitArrowGo : List Char → List (List Char)
  | ' ' :: '-' :: '>' :: ' ' :: rest => [] :: splitArrowGo rest
  | c :: rest =>
    match splitArrowGo rest with
    | seg :: segs => (c :: seg) :: segs
    | [] => [[c]]
  | [] => [[]]

/-- Python type_comment.split(" -> ") (line 540). -/
def pySplitArrow (s : String) : List String :=
  (splitArrowGo s.data).map String.mk

/-- The strip-then-lstrip of the local add helper (line 593): spaces removed,
then leading var/kw-arg star markers. -/
def stripLstripStar (v : String) : String :=
  pyLstrip '*' (pyTrim v)

/-- The bracket-depth-aware scan of split_type_comment_args (lines 600-610):
commas split only at depth zero; the current segment accumulates reversed. -/
def stcaGo : List Char → Int → List Char → List (List Char)
  | [], _, cur => [cur.reverse]
  | c :: rest, brackets, cur =>
    if c == '[' || c == '(' then stcaGo rest (brackets + 1) (c :: cur)
    else if c == ']' || c == ')' then stcaGo rest (brackets - 1) (c :: cur)
    else if c == ',' && brackets == 0 then cur.reverse :: stcaGo rest brackets []
    else stcaGo rest brackets (c :: cur)

/-- Embeds split_type_comment_args (lines 591-611).  The list entries are all
present (some); the None placeholder for an omitted self/cls is inserted by
the caller (line 554). -/
def split_type_comment_args (comment : String) : List (Option String) :=
  let comment := pyRstrip ')' (pyLstrip '(' (pyTrim comment))
  if comment == "" then []
  else (stcaGo comment.data 0 []).map (fun seg => some (stripLstripStar (String.mk seg)))

/-- One argument node of the parsed function signature, as load_args (lines
573-588) collects them: the .arg name (always present on AST argument nodes)
and the per-argument trailing type comment, if any. -/
structure AstArg where
  arg : String
  type_comment : Option String

/-- Embeds the type-comment reconciliation of backfill_type_hints (lines
536-570).  The earlier part of the function (lines 512-534:
inspect.getsource, ast.parse, the one-child check and reading the node's
type_comment attribute) is host-runtime AST machinery; its outputs — the
argument list via load_args and the raw type-comment string — are taken as
inputs here.  Warnings are returned explicitly in the first component in
place of _LOGGER.warning; the second component is the resulting mapping in
insertion order. -/
def backfill_from_type_comment (nm : String) (args : List AstArg)
    (type_comment : String) : List String × List (String × String) :=
  if type_comment == "" then ([], [])
  else
    match pySplitArrow type_comment with
    | [comment_args_str, comment_returns] =>
      let rv := if ¬ (comment_returns == "") then [("return", comment_returns)] else []
      let comment_args : List (Option String) := split_type_comment_args comment_args_str
      let is_inline := comment_args == [some "..."]
      let comment_args :=
        if ¬ is_inline &&
            (match args with
             | [] => false
             | a :: _ => a.arg == "self" || a.arg == "cls") &&
            ¬ (comment_args.length == args.length) then
          none :: comment_args
        else comment_args
      if ¬ is_inline && ¬ (args.length == comment_args.length) then
        (["Not enough type comments found on \"" ++ nm ++ "\""], rv)
      else
        let collected :=
          if is_inline then
            args.filterMap (fun a => a.type_comment.map (fun v => (a.arg, v)))
          else
            (args.zip comment_args).filterMap (fun p => p.2.map (fun v => (p.1.arg, v)))
        ([], rv ++ collected)
    | _ =>
      (["Unparseable type hint comment for \"" ++ nm ++ "\": Expected to contain ` -> `"], [])

/-! ## Guarded-import resolution registry -/

/-- The module object inspect.getmodule finds for a target, and whether
inspect.getsource succeeds on it. -/
structure ModuleRef where
  nm : String
  hasSource : Bool
deriving DecidableEq, Repr

/-- The introspection traits of a target object that
_resolve_type_guarded_imports reads. -/
structure PyObj where
  isModule : Bool
  hasGlobals : Bool
  globalsId : Nat
  objModule : Option String
  getmodule : Option ModuleRef
deriving DecidableEq, Repr

/-- The process-wide registries _TYPE_GUARD_IMPORTS_RESOLVED and
_TYPE_GUARD_IMPORTS_RESOLVED_GLOBALS_ID (lines 431-432), together with a log
of guard-block executions: one entry records one run of
_execute_guarded_code over a module's source (the model of the exec side
effect). -/
structure GuardState where
  resolved : List String
  resolvedGlobalsIds : List Nat
  execLog : List String
deriving DecidableEq, Repr

/-- Embeds _should_skip_guarded_import_resolution (lines 435-445), with the
runtime constant sys.builtin_module_names passed explicitly. -/
def should_skip_guarded_import_resolution (builtinModules : List String)
    (st : GuardState) (o : PyObj) : Bool :=
  if o.isModule then false
  else if ¬ o.hasGlobals then true
  else
    match o.objModule with
    | some m => st.resolved.contains m || builtinModules.contains m
    | none => st.resolvedGlobalsIds.contains o.globalsId

/-- Embeds _resolve_type_guarded_imports (lines 468-484): skip when the memo
already covers the object, record the globals identity, and when the
object's module has retrievable source, record the module name in the
registry and execute its guarded code (modeled as one execution-log
entry). -/
def resolve_type_guarded_imports (builtinModules : List String) (st : GuardState)
    (o : PyObj) : GuardState :=
  if should_skip_guarded_import_resolution builtinModules st o then st
  else
    let st := if o.hasGlobals then
        { st with resolvedGlobalsIds := o.globalsId :: st.resolvedGlobalsIds }
      else st
    match o.getmodule with
    | none => st
    | some m =>
      if m.hasSource then
        { st with resolved := m.nm :: st.resolved, execLog := st.execLog ++ [m.nm] }
      else st

/-! ## Configuration validation -/

/-- Embeds validate_config (lines 915-924).  The formatter check is carried
by two booleans: whether app.config.typehints_formatter is None and whether
it is callable.  Python's membership test `not in valid | set of False` is
the equality-based membership over the five allowed values. -/
def validate_config (typehints_defaults : PyDefaultsOpt)
    (formatter_is_none formatter_callable : Bool) : Except String Unit :=
  if ¬ (typehints_defaults ∈
      ([.pynone, .pystr "comma", .pystr "braces", .pystr "braces-after",
        .pybool false] : List PyDefaultsOpt)) then
    .error "typehints_defaults needs to be one of None, comma, braces, braces-after"
  else if ¬ formatter_is_none && ¬ formatter_callable then
    .error "typehints_formatter needs to be callable or None"
  else .ok ()

/-! ## Splicer claims -/

theorem insertAt_length (l : List String) (x : String) : insertAt l.length x l = l ++ [x] := by
  simp [insertAt]

/-- C3 counterexample: for a synthesized parameter field the type line is
not inserted immediately before the field's line index — the bare param
field is appended and the type line lands immediately after it (lines
748-750 compute the insert index after the append). -/
theorem c3_counterexample :
    inject_one { always_document_param_types := true } [("a", Ann.builtin "int")]
        ⟨"a", none⟩ [] =
      [":param a:",
        ":type a: :sphinx_autodoc_typehints_type:`\\:py\\:class\\:\\`int\\``"] := by
  decide

/-- C3 (amended): with typehints_defaults unset, the type field line for a
parameter with a discovered param field is inserted immediately before the
discovered field's line index, every other line staying in place; for a
parameter with no discovered field, an annotation and the
always-document flag on, the bare param field is appended at the end of the
buffer and the type field line is inserted immediately after it. -/
theorem c3_type_field_insertion (cfg : AppConfig) (hints : List (String × Ann)) (p : SigParam)
    (lines : List String) (hdef : cfg.typehints_defaults = .pynone) :
    (∀ at_ kw dn,
        lines.findIdx? (fun l => line_is_param_line_for_arg l (escapedName p.name)) = some at_ →
        get_sphinx_line_keyword_and_arg (lines.getD at_ "") = some (kw, some dn) →
        inject_one cfg hints p lines =
          lines.take at_ ++ type_field_line cfg (hints.lookup p.name) dn :: lines.drop at_)
    ∧ (lines.findIdx? (fun l => line_is_param_line_for_arg l (escapedName p.name)) = none →
        (hints.lookup p.name).isSome = true →
        cfg.always_document_param_types = true →
        inject_one cfg hints p lines =
          lines ++ [":param " ++ escapedName p.name ++ ":",
            type_field_line cfg (hints.lookup p.name) (escapedName p.name)]) := by
  constructor
  · intro at_ kw dn h1 h2
    simp at h2
    simp [inject_one, h1, h2, insert_with_type, hdef, PyDefaultsOpt.truthy, insertAt]
  · intro h1 h2 h3
    rw [inject_one, h1]
    simp only [h2, h3, Bool.and_self, if_true, Bool.true_and]
    rw [insert_with_type, hdef]
    simp only [PyDefaultsOpt.truthy, Bool.false_eq_true, if_false, insertAt_length]
    simp

/-- C3 witness: the discovered-field clause instantiated on a one-line
buffer documenting x. -/
theorem c3_type_field_insertion_witness :
    inject_one {} [("x", Ann.builtin "bool")] ⟨"x", none⟩ [":param x: foo"] =
      [type_field_line {} (List.lookup "x" [("x", Ann.builtin "bool")]) "x",
        ":param x: foo"] := by
  have h := (c3_type_field_insertion {} [("x", Ann.builtin "bool")] ⟨"x", none⟩
    [":param x: foo"] rfl).1 0 "param" "x" (by decide) (by decide)
  simpa using h

/-- C4: when the buffer already contains a line starting with ":rtype:",
get_insert_index answers None (line 826-827) and _inject_rtype leaves the
buffer unchanged (lines 887-889) — for every behavior of the docutils
parsing tail and every configuration and target kind. -/
theorem c4_existing_rtype_unchanged (tail : List String → Option InsertIndexInfo)
    (cfg : AppConfig) (ret : Ann) (objIsClass objIsDataDescriptor : Bool)
    (what nm : String) (lines : List String)
    (h : ∃ l ∈ lines, strStartsWith l ":rtype:") :
    inject_rtype tail cfg ret objIsClass objIsDataDescriptor what nm lines = lines := by
  have hany : lines.any (fun line => strStartsWith line ":rtype:") = true := by
    simp only [List.any_eq_true]
    obtain ⟨l, hl, hs⟩ := h
    exact ⟨l, hl, by simp [hs]⟩
  have hgii : get_insert_index tail lines = none := by simp [get_insert_index, hany]
  simp [inject_rtype, hgii]

/-- C4 witness: the theorem instantiated on a buffer holding one rtype
field. -/
theorem c4_existing_rtype_unchanged_witness :
    inject_rtype (fun _ => none) {} (Ann.builtin "str") false false "function" "mod.f"
      [":rtype: :py:class:`int`"] = [":rtype: :py:class:`int`"] :=
  c4_existing_rtype_unchanged (fun _ => none) {} (Ann.builtin "str") false false
    "function" "mod.f" [":rtype: :py:class:`int`"] (by decide)

/-- C6 counterexample: ":keyword x: desc" is a structured field whose
keyword, "keyword", belongs to the seven-synonym set PARAM_SYNONYMS and
whose argument is exactly the parameter name, yet the per-parameter scan
rejects it: _line_is_param_line_for_arg only accepts the four keywords
param, parameter, arg and argument (line 703). -/
theorem c6_counterexample :
    get_sphinx_line_keyword_and_arg ":keyword x: desc" = some ("keyword", some "x") ∧
      ("keyword " ∈ PARAM_SYNONYMS) ∧
      line_is_param_line_for_arg ":keyword x: desc" "x" = false :=
  ⟨rfl, by decide, by decide⟩

/-- C6 (amended): the per-parameter scan recognizes a line exactly when it
is a structured field whose keyword is one of the four synonyms param,
parameter, arg, argument and whose argument equals the parameter name with
an optional prefix drawn from "\*", "\**", "\*\*". -/
theorem c6_param_scan_characterization (line arg_name : String) :
    line_is_param_line_for_arg line arg_name = true ↔
      ∃ kw dn, get_sphinx_line_keyword_and_arg line = some (kw, some dn) ∧
        kw ∈ (["param", "parameter", "arg", "argument"] : List String) ∧
        ∃ pre ∈ STAR_PREFIXES, dn = pre ++ arg_name := by
  unfold line_is_param_line_for_arg
  rcases hk : get_sphinx_line_keyword_and_arg line with _ | ⟨kw, dn⟩
  · simp
  · rcases dn with _ | dn
    · simp
    · by_cases hkw : kw ∈ (["param", "parameter", "arg", "argument"] : List String)
      · simp [hkw, List.any_eq_true, beq_iff_eq]
        constructor
        · rintro ⟨x, hx, hdn⟩
          refine ⟨kw, dn, ⟨rfl, rfl⟩, ?_, x, hx, hdn⟩
          simpa using hkw
        · rintro ⟨kw1, dn1, ⟨hkeq, hdneq⟩, hmem, x, hx, hdn⟩
          exact ⟨x, hx, by rw [hdneq]; exact hdn⟩
      · simp [hkw]
        intro h
        exact absurd (by rcases h with h | h | h | h <;> simp [h]) hkw

/-- C10: a parameter with no resolved annotation and no discovered field
never causes a field to be synthesized — whatever the configuration, the
buffer is returned untouched (the synthesis guard of line 748 requires an
annotation) — while a parameter with a discovered field and no annotation
still receives the empty type field line ":type name: " (line 754). -/
theorem c10_unannotated_param_handling (cfg : AppConfig) (hints : List (String × Ann))
    (p : SigParam) (lines : List String) :
    (hints.lookup p.name = none →
      lines.findIdx? (fun l => line_is_param_line_for_arg l (escapedName p.name)) = none →
      inject_one cfg hints p lines = lines)
    ∧ (cfg.typehints_defaults = .pynone →
      hints.lookup p.name = none →
      ∀ at_ kw dn,
        lines.findIdx? (fun l => line_is_param_line_for_arg l (escapedName p.name)) = some at_ →
        get_sphinx_line_keyword_and_arg (lines.getD at_ "") = some (kw, some dn) →
        inject_one cfg hints p lines =
          lines.take at_ ++ (":type " ++ dn ++ ": ") :: lines.drop at_) := by
  constructor
  · intro h1 h2
    simp [inject_one, h1, h2]
  · intro hdef h1 at_ kw dn h2 h3
    simp at h3
    simp [inject_one, h1, h2, h3, insert_with_type, hdef, PyDefaultsOpt.truthy, insertAt,
      type_field_line]

/-- C10 witness: both clauses instantiated — an undocumented unannotated
parameter leaves the buffer untouched even with the always-document flag
set, and a documented unannotated parameter gets the empty type field. -/
theorem c10_unannotated_param_handling_witness :
    inject_one { always_document_param_types := true } [] ⟨"q", none⟩ [] = [] ∧
      inject_one {} [] ⟨"x", none⟩ [":param x: doc"] = [":type x: ", ":param x: doc"] :=
  ⟨(c10_unannotated_param_handling { always_document_param_types := true } [] ⟨"q", none⟩ []).1
      rfl (by decide),
    by
      have h := (c10_unannotated_param_handling {} [] ⟨"x", none⟩ [":param x: doc"]).2
        rfl rfl 0 "param" "x" (by decide) (by decide)
      simpa using h⟩

/-! ## Resolver and configuration claims -/

/-- C5: when the type comment lists three argument types for a two-argument
function, the count cannot be reconciled (even the self/cls placeholder
insertion of line 554 cannot align it), so the backfill logs the
"Not enough type comments found" warning and returns a mapping holding only
the return key (lines 556-558) — and, being a total function, does not
raise. -/
theorem c5_count_mismatch_drops_params (nm : String) (args : List AstArg)
    (tc argsStr retStr : String)
    (h1 : pySplitArrow tc = [argsStr, retStr]) (h2 : (retStr == "") = false)
    (h3 : (split_type_comment_args argsStr).length = 3) (h4 : args.length = 2) :
    backfill_from_type_comment nm args tc =
      (["Not enough type comments found on \"" ++ nm ++ "\""], [("return", retStr)]) := by
  have htc : (tc == "") = false := by
    rcases htc' : tc == "" with _ | _
    · rfl
    · exfalso
      have : tc = "" := by simpa using htc'
      rw [this] at h1
      simp [pySplitArrow, splitArrowGo] at h1
  have hinline : (split_type_comment_args argsStr == [some "..."]) = false := by
    rcases hi : split_type_comment_args argsStr == [some "..."] with _ | _
    · rfl
    · exfalso
      have : split_type_comment_args argsStr = [some "..."] := by simpa using hi
      rw [this] at h3
      simp at h3
  rw [backfill_from_type_comment.eq_def, htc]
  simp only [Bool.false_eq_true, if_false, h1, h2, hinline]
  rcases args with _ | ⟨a, args'⟩
  · simp at h4
  rcases args' with _ | ⟨b, args''⟩
  · simp at h4
  rcases args'' with _ | ⟨c, args'''⟩
  · by_cases hsc : (a.arg == "self" || a.arg == "cls") = true
    · simp [hsc, h3]
    · simp only [Bool.not_eq_true] at hsc
      simp [hsc, h3]
  · simp at h4

/-- C5 witness: the theorem instantiated on the comment
(int, str, bool) -> bool over a two-argument function. -/
theorem c5_count_mismatch_drops_params_witness :
    backfill_from_type_comment "mod.f" [⟨"a", none⟩, ⟨"b", none⟩]
        "(int, str, bool) -> bool" =
      (["Not enough type comments found on \"mod.f\""], [("return", "bool")]) :=
  c5_count_mismatch_drops_params "mod.f" [⟨"a", none⟩, ⟨"b", none⟩]
    "(int, str, bool) -> bool" "(int, str, bool)" "bool"
    (by decide) rfl (by decide) rfl

/-- C7: resolving two different callables of the same module, each carrying
a module attribute and globals, executes the module's guarded code exactly
once: the first resolution records the module name in the process-wide
registry (line 483) and runs the guard block, and the second resolution is
skipped by the registry test of line 443, leaving the state — and the
execution log — unchanged. -/
theorem c7_guarded_import_memoization (builtins : List String) (st : GuardState)
    (o1 o2 : PyObj) (m : String)
    (h1 : o1.isModule = false) (h2 : o1.hasGlobals = true) (h3 : o1.objModule = some m)
    (h4 : st.resolved.contains m = false) (h5 : builtins.contains m = false)
    (h6 : o1.getmodule = some ⟨m, true⟩)
    (h7 : o2.isModule = false) (h8 : o2.hasGlobals = true) (h9 : o2.objModule = some m) :
    (resolve_type_guarded_imports builtins st o1).resolved.contains m = true ∧
      resolve_type_guarded_imports builtins (resolve_type_guarded_imports builtins st o1) o2 =
        resolve_type_guarded_imports builtins st o1 ∧
      (resolve_type_guarded_imports builtins
          (resolve_type_guarded_imports builtins st o1) o2).execLog =
        st.execLog ++ [m] := by
  have h4' : m ∉ st.resolved := by simpa using h4
  have h5' : m ∉ builtins := by simpa using h5
  have hskip1 : should_skip_guarded_import_resolution builtins st o1 = false := by
    simp [should_skip_guarded_import_resolution, h1, h2, h3, h4', h5']
  have hst1 : resolve_type_guarded_imports builtins st o1 =
      { resolved := m :: st.resolved,
        resolvedGlobalsIds := o1.globalsId :: st.resolvedGlobalsIds,
        execLog := st.execLog ++ [m] } := by
    simp [resolve_type_guarded_imports, hskip1, h2, h6]
  have hskip2 : should_skip_guarded_import_resolution builtins
      ({ resolved := m :: st.resolved,
         resolvedGlobalsIds := o1.globalsId :: st.resolvedGlobalsIds,
         execLog := st.execLog ++ [m] } : GuardState) o2 = true := by
    simp [should_skip_guarded_import_resolution, h7, h8, h9]
  refine ⟨?_, ?_, ?_⟩
  · rw [hst1]
    simp
  · rw [hst1]
    simp [resolve_type_guarded_imports, hskip2]
  · rw [hst1]
    simp [resolve_type_guarded_imports, hskip2]

/-- C7 witness: two concrete callables of module "mod", resolved from the
empty registry state. -/
theorem c7_guarded_import_memoization_witness :
    (resolve_type_guarded_imports ["sys"] ⟨[], [], []⟩
        ⟨false, true, 1, some "mod", some ⟨"mod", true⟩⟩).resolved.contains "mod" = true ∧
      resolve_type_guarded_imports ["sys"]
          (resolve_type_guarded_imports ["sys"] ⟨[], [], []⟩
            ⟨false, true, 1, some "mod", some ⟨"mod", true⟩⟩)
          ⟨false, true, 2, some "mod", some ⟨"mod", true⟩⟩ =
        resolve_type_guarded_imports ["sys"] ⟨[], [], []⟩
          ⟨false, true, 1, some "mod", some ⟨"mod", true⟩⟩ ∧
      (resolve_type_guarded_imports ["sys"]
          (resolve_type_guarded_imports ["sys"] ⟨[], [], []⟩
            ⟨false, true, 1, some "mod", some ⟨"mod", true⟩⟩)
          ⟨false, true, 2, some "mod", some ⟨"mod", true⟩⟩).execLog = [] ++ ["mod"] :=
  c7_guarded_import_memoization ["sys"] ⟨[], [], []⟩
    ⟨false, true, 1, some "mod", some ⟨"mod", true⟩⟩
    ⟨false, true, 2, some "mod", some ⟨"mod", true⟩⟩ "mod"
    rfl rfl rfl rfl (by decide) rfl rfl rfl rfl

/-- C9: validate_config raises exactly when the typehints_defaults value
lies outside the allowed set — None, False, "comma", "braces",
"braces-after" — or when the typehints_formatter value is neither None nor
callable; every valid configuration passes without error (lines 915-924). -/
theorem c9_validate_config_characterization (d : PyDefaultsOpt) (fn fc : Bool) :
    (∃ e, validate_config d fn fc = .error e) ↔
      (¬ d ∈ ([.pynone, .pystr "comma", .pystr "braces", .pystr "braces-after",
        .pybool false] : List PyDefaultsOpt) ∨ (fn = false ∧ fc = false)) := by
  unfold validate_config
  by_cases hd : d ∈ ([.pynone, .pystr "comma", .pystr "braces", .pystr "braces-after",
      .pybool false] : List PyDefaultsOpt)
  · simp [hd]
    cases fn <;> cases fc <;> simp
  · simp [hd]

end AutodocTypehints
